import Mathlib

/-!
Shallow embedding of the `sheetty-shits` spreadsheet library
(`src/spreadsheets/...`), together with theorems settling the claims about
its column/address codec, selection engine, fill commands, grid store,
temporal types and the Null singleton.

Python integers are modelled as `Int` (all the embedded quantities are small,
so no overflow modelling is needed), Python strings as `String`, Python dicts
as insertion-ordered association lists with replace-on-duplicate-key
semantics, and raising code as `Except String`-valued functions.
-/

namespace Sheetty

deriving instance DecidableEq for Except

/-! ## Column/Address codec (src/spreadsheets/base/classes.py, class Address) -/

namespace Address

/-- `Address.valid_chars`: the 26 uppercase letters. -/
def valid_chars : List Char := "ABCDEFGHIJKLMNOPQRSTUVWXYZ".data

/-- The `while num > 0` loop of `Address.get_col_by_num`: decrement,
emit `chr(num % 26 + ord('A'))`, integer-divide by 26.  Characters come out
least-significant first, exactly as the Python loop appends them.
`fuel` bounds the iteration count structurally; the loop variable strictly
decreases each pass, so `fuel = num` (as used below) never runs out and the
embedding computes exactly the source loop. -/
def colCharsAux : Nat → Nat → List Char
  | _, 0 => []
  | 0, _ + 1 => []
  | fuel + 1, n + 1 => Char.ofNat (n % 26 + 65) :: colCharsAux fuel (n / 26)

/-- `Address.get_col_by_num(num)`: the accumulated characters reversed.
For `num <= 0` the Python loop body never runs and the result is `""`,
which `Int.toNat` reproduces. -/
def get_col_by_num (num : Int) : String :=
  String.mk (colCharsAux num.toNat num.toNat).reverse

/-- `Address.__get_col_num(col)` (also exposed to callers as
`Address.get_col_num`): fold `col_num = col_num * 26 + (ord(char) - ord('A') + 1)`. -/
def get_col_num (col : String) : Int :=
  col.data.foldl (fun acc c => acc * 26 + ((c.toNat : Int) - 65 + 1)) 0

/-- `Address.is_valid_col(col)`: every character is in `valid_chars`. -/
def is_valid_col (col : String) : Bool :=
  col.data.all (fun c => valid_chars.contains c)

/-- Fold `digits` of a decimal string into a number (the effect of Python
`int(...)` on the all-digit strings this code feeds it). -/
def digitsToNat (cs : List Char) : Nat :=
  cs.foldl (fun acc c => acc * 10 + (c.toNat - 48)) 0

/-- Modelled from the spec: `Address.split_address_str` is called by
`cells.py` and `main.py` but its definition is not under `src/`.
Spec §4.1: split a combined address string into (column-label-prefix,
row-number-suffix) at the first digit encountered scanning left to right;
return `("", 0)` if no digit is found. -/
def split_address_str (text : String) : String × Int :=
  let i := text.data.findIdx (fun c => c.isDigit)
  if i = text.data.length then ("", 0)
  else (String.mk (text.data.take i), (digitsToNat (text.data.drop i) : Int))

/-- Modelled from the spec: `Address.is_valid_address_str` is called by
`cells.py`, `main.py` and `paramtypes.py` but its definition is not under
`src/`.  Spec §4.1: the column passes `is_valid_col`, the column is
non-empty, the row is non-zero, and (if bounds are given as a
(max-column-label, max-row) pair) the address does not exceed them. -/
def is_valid_address_str (text : String) (bounds : Option (String × Int)) : Bool :=
  let p := split_address_str text
  is_valid_col p.1 && !(p.1 = "") && !(p.2 = 0) &&
    (match bounds with
     | none => true
     | some b => decide (get_col_num p.1 ≤ get_col_num b.1) && decide (p.2 ≤ b.2))

end Address

/-- The grid limits dictionary `{'col': col_max, 'row': row_max}`. -/
structure Limits where
  col : Int
  row : Int
deriving DecidableEq

/-- The default `Spreadsheets` limits (`col_max=1000`, `row_max=1000`). -/
def defaultLimits : Limits := ⟨1000, 1000⟩

/-- The data carried by an `Address` instance (`__col`, `__row`);
equality and hashing in the source are by (col, row). -/
structure Address where
  col : String
  row : Int
deriving DecidableEq

/-- `Address.__value`, i.e. `f"{col}{row}"`, returned by `__str__`. -/
def Address.value (a : Address) : String := a.col ++ toString a.row

/-- `Address.__new__(col, row, spreadsheets_limits)`: validates the column
characters, then the column limit, then the row limit; `NameError`s become
`.error`. -/
def Address.new (col : String) (row : Int) (limits : Limits) : Except String Address :=
  if Address.is_valid_col col = false then
    .error ("Can't name address " ++ col ++ toString row)
  else if Address.get_col_num col > limits.col then
    .error ("Can't name address " ++ col ++ toString row ++ ", as it is out of column limit")
  else if row > limits.row then
    .error ("Can't name address " ++ col ++ toString row ++ ", as it is out of row limit")
  else
    .ok ⟨col, row⟩

/-! ### Codec lemmas -/

lemma char_ofNat_toNat_of_lt (r : Nat) (h : r < 26) :
    (Char.ofNat (r + 65)).toNat = r + 65 := by
  interval_cases r <;> decide

lemma char_ofNat_mem_valid_chars (r : Nat) (h : r < 26) :
    Char.ofNat (r + 65) ∈ Address.valid_chars := by
  interval_cases r <;> decide

lemma colCharsAux_mem (fuel : Nat) :
    ∀ k : Nat, ∀ c ∈ Address.colCharsAux fuel k, c ∈ Address.valid_chars := by
  induction fuel with
  | zero =>
    intro k c hc
    cases k <;> simp [Address.colCharsAux] at hc
  | succ fuel ih =>
    intro k c hc
    cases k with
    | zero => simp [Address.colCharsAux] at hc
    | succ n =>
      rw [Address.colCharsAux] at hc
      rcases List.mem_cons.mp hc with h | h
      · subst h
        exact char_ofNat_mem_valid_chars (n % 26) (Nat.mod_lt _ (by norm_num))
      · exact ih (n / 26) c h

lemma foldl_colCharsAux (fuel : Nat) : ∀ k : Nat, k ≤ fuel → ∀ a : Int,
    List.foldl (fun acc c => acc * 26 + ((c.toNat : Int) - 65 + 1)) a
        (Address.colCharsAux fuel k).reverse
      = a * 26 ^ (Address.colCharsAux fuel k).length + k := by
  induction fuel with
  | zero =>
    intro k hk a
    interval_cases k
    simp [Address.colCharsAux]
  | succ fuel ih =>
    intro k hk a
    cases k with
    | zero => simp [Address.colCharsAux]
    | succ n =>
      have hrec : n / 26 ≤ fuel :=
        le_trans (Nat.div_le_self n 26) (Nat.le_of_succ_le_succ hk)
      rw [Address.colCharsAux, List.reverse_cons, List.foldl_append,
        ih (n / 26) hrec a]
      simp only [List.foldl_cons, List.foldl_nil, List.length_cons]
      rw [char_ofNat_toNat_of_lt (n % 26) (Nat.mod_lt _ (by norm_num))]
      rw [pow_succ]
      have hdm : 26 * (n / 26) + n % 26 = n := Nat.div_add_mod n 26
      push_cast
      nlinarith [hdm]

lemma get_col_num_get_col_by_num (k : Nat) :
    Address.get_col_num (Address.get_col_by_num (k : Int)) = k := by
  unfold Address.get_col_num Address.get_col_by_num
  rw [Int.toNat_natCast]
  simpa using foldl_colCharsAux k k le_rfl 0

/-- C3: for every integer n from 1 to 1000,
`get_col_num(get_col_by_num(n)) = n` and `get_col_by_num(n)` consists only
of characters A–Z; concretely `get_col_by_num` maps 1 to "A", 26 to "Z",
27 to "AA", 52 to "AZ", and 703 to "AAA". -/
theorem column_codec_roundtrip :
    (∀ n : Int, 1 ≤ n → n ≤ 1000 →
        Address.get_col_num (Address.get_col_by_num n) = n
        ∧ ∀ c ∈ (Address.get_col_by_num n).data, c ∈ Address.valid_chars)
    ∧ Address.get_col_by_num 1 = "A"
    ∧ Address.get_col_by_num 26 = "Z"
    ∧ Address.get_col_by_num 27 = "AA"
    ∧ Address.get_col_by_num 52 = "AZ"
    ∧ Address.get_col_by_num 703 = "AAA" := by
  refine ⟨fun n h1 _h2 => ⟨?_, ?_⟩, by decide, by decide, by decide, by decide, by decide⟩
  · have hk : ((n.toNat : Int)) = n := Int.toNat_of_nonneg (by omega)
    calc Address.get_col_num (Address.get_col_by_num n)
        = Address.get_col_num (Address.get_col_by_num (n.toNat : Int)) := by rw [hk]
      _ = (n.toNat : Int) := get_col_num_get_col_by_num n.toNat
      _ = n := hk
  · intro c hc
    have : c ∈ (Address.colCharsAux n.toNat n.toNat).reverse := by
      simpa [Address.get_col_by_num] using hc
    exact colCharsAux_mem n.toNat n.toNat c (List.mem_reverse.mp this)

/-! ## Selection engine (src/spreadsheets/base/cells.py) -/

/-- `rules.SelectDirection`. -/
inductive SelectDirection
  | Left
  | Right
  | Up
  | Down
deriving DecidableEq

/-- Python `range(a, b)` over machine integers: `[a, a+1, ..., b-1]`,
empty when `b ≤ a`. -/
def intRange (a b : Int) : List Int :=
  (List.range (b - a).toNat).map (fun (i : Nat) => a + (i : Int))

/-- The `SelectFormats.Line` match block of `select` (cells.py), operating on
the already-split anchor pieces (`col`, `row`) exactly as the source does
after `col, row = Address.split_address_str(address_range)` and
`col_n = Address.get_col_num(col)`. -/
def line_addresses (col : String) (row : Int) (direction : SelectDirection)
    (number : Int) : List String :=
  let col_n : Int := Address.get_col_num col
  match direction with
  | .Left =>
      (intRange (col_n - number) (col_n + 1)).map
        (fun k => Address.get_col_by_num k ++ toString row)
  | .Right =>
      (intRange col_n (col_n + number + 1)).map
        (fun k => Address.get_col_by_num k ++ toString row)
  | .Up =>
      (intRange (row - number) (row + 1)).map (fun r => col ++ toString r)
  | .Down =>
      (intRange row (row + number + 1)).map (fun r => col ++ toString r)

/-- The directional branch of `select(address_range, direction, number)` for
a single direction and a single integer count (the `SelectFormats.Line`
path): validate the anchor, split it, and enumerate the line.  The returned
`CellManager` is represented by its `addresses_str` list. -/
def select_line (address_range : String) (direction : SelectDirection)
    (number : Int) : Except String (List String) :=
  if Address.is_valid_address_str address_range none = false then
    .error "Invalid cell address, learn more about cell address for select in docs"
  else
    let p := Address.split_address_str address_range
    .ok (line_addresses p.1 p.2 direction number)

/-- The spec's wording of a Line selection (§4.7): the inclusive straight
run of `count+1` addresses from the anchor, one step at a time in the given
direction (Left/Right along columns, Up/Down along rows).  Used as the
reference model for the amended C5. -/
def spec_line_run (col : String) (row : Int) (d : SelectDirection) (n : Nat) :
    List String :=
  let col_n : Int := Address.get_col_num col
  match d with
  | .Right =>
      (List.range (n + 1)).map
        (fun (i : Nat) => Address.get_col_by_num (col_n + (i : Int)) ++ toString row)
  | .Down =>
      (List.range (n + 1)).map (fun (i : Nat) => col ++ toString (row + (i : Int)))
  | .Left =>
      (List.range (n + 1)).map
        (fun (i : Nat) => Address.get_col_by_num (col_n - (n : Int) + (i : Int)) ++ toString row)
  | .Up =>
      (List.range (n + 1)).map (fun (i : Nat) => col ++ toString (row - (n : Int) + (i : Int)))

lemma intRange_add_natCast (a : Int) (k : Nat) :
    intRange a (a + (k : Int)) = (List.range k).map (fun (i : Nat) => a + (i : Int)) := by
  unfold intRange
  rw [show a + (k : Int) - a = (k : Int) by ring, Int.toNat_natCast]

/-- C5 (amended): the Line branch returns exactly `n+1` address strings —
the spec-worded inclusive straight run — ordered anchor-first for
Right/Down and far-end-first (anchor last) for Left/Up; concretely
`select("A1", Right, 3)` yields exactly `["A1","B1","C1","D1"]`. -/
theorem select_line_run :
    (∀ (col : String) (row : Int) (n : Nat) (d : SelectDirection),
        line_addresses col row d (n : Int) = spec_line_run col row d n
        ∧ (line_addresses col row d (n : Int)).length = n + 1)
    ∧ select_line "A1" SelectDirection.Right 3 = .ok ["A1", "B1", "C1", "D1"] := by
  constructor
  · intro col row n d
    have key : line_addresses col row d (n : Int) = spec_line_run col row d n := by
      cases d
      · show (intRange (Address.get_col_num col - (n : Int))
            (Address.get_col_num col + 1)).map _ = _
        rw [show Address.get_col_num col + 1
              = (Address.get_col_num col - (n : Int)) + ((n + 1 : Nat) : Int) by push_cast; ring,
          intRange_add_natCast, List.map_map]
        rfl
      · show (intRange (Address.get_col_num col)
            (Address.get_col_num col + (n : Int) + 1)).map _ = _
        rw [show Address.get_col_num col + (n : Int) + 1
              = Address.get_col_num col + ((n + 1 : Nat) : Int) by push_cast; ring,
          intRange_add_natCast, List.map_map]
        rfl
      · show (intRange (row - (n : Int)) (row + 1)).map _ = _
        rw [show row + 1 = (row - (n : Int)) + ((n + 1 : Nat) : Int) by push_cast; ring,
          intRange_add_natCast, List.map_map]
        rfl
      · show (intRange row (row + (n : Int) + 1)).map _ = _
        rw [show row + (n : Int) + 1 = row + ((n + 1 : Nat) : Int) by push_cast; ring,
          intRange_add_natCast, List.map_map]
        rfl
    refine ⟨key, ?_⟩
    cases d <;>
      simp only [line_addresses, intRange, List.length_map, List.length_range] <;>
      omega
  · decide

/-- C5 (counterexample to the claim as stated): with the valid anchor "A1",
direction Left and count 1 ≥ 0, the selection is `["1", "A1"]` — its first
entry "1" is not a valid address at all (there is no column left of "A"),
so the returned strings do not form the claimed straight run beginning at
the anchor. -/
theorem select_line_left_out_of_grid :
    select_line "A1" SelectDirection.Left 1 = .ok ["1", "A1"]
    ∧ Address.is_valid_address_str "1" none = false := by decide

/-! ## Python dict semantics: insertion-ordered association lists with
replace-on-duplicate-key assignment. -/

/-- `m[k] = v` on a Python dict: replace in place when the key is present,
otherwise append at the end. -/
def dictInsert {α β : Type} [DecidableEq α] (m : List (α × β)) (k : α) (v : β) :
    List (α × β) :=
  if m.any (fun p => decide (p.1 = k)) then
    m.map (fun p => if p.1 = k then (k, v) else p)
  else
    m ++ [(k, v)]

/-- `m[k]` / `k in m` on a Python dict. -/
def dictLookup {α β : Type} [DecidableEq α] (m : List (α × β)) (k : α) : Option β :=
  (m.find? (fun p => decide (p.1 = k))).map Prod.snd

lemma dictLookup_dictInsert_self {α β : Type} [DecidableEq α]
    (m : List (α × β)) (k : α) (v : β) :
    dictLookup (dictInsert m k v) k = some v := by
  induction m with
  | nil => simp [dictInsert, dictLookup]
  | cons p rest ih =>
    by_cases hp : p.1 = k
    · simp [dictInsert, dictLookup, hp]
    · by_cases hr : rest.any (fun q => decide (q.1 = k))
      · have h1 : dictInsert (p :: rest) k v
            = p :: rest.map (fun q => if q.1 = k then (k, v) else q) := by
          simp [dictInsert, hp, hr]
        have h2 : dictInsert rest k v
            = rest.map (fun q => if q.1 = k then (k, v) else q) := by
          simp [dictInsert, hr]
        rw [h1, dictLookup, List.find?_cons_of_neg _ (by simpa using hp), ← dictLookup,
          ← h2, ih]
      · have h1 : dictInsert (p :: rest) k v = p :: (rest ++ [(k, v)]) := by
          simp [dictInsert, hp, hr]
        have h2 : dictInsert rest k v = rest ++ [(k, v)] := by
          simp [dictInsert, hr]
        rw [h1, dictLookup, List.find?_cons_of_neg _ (by simpa using hp), ← dictLookup,
          ← h2, ih]

/-! ## Cells, values, executables (classes.py / cells.py) -/

/-- The runtime type tags relevant to the claims (`value.__class__`). -/
inductive VType
  | IntT
  | StrT
deriving DecidableEq

/-- Cell values: `Integer` wraps its int, `String` its text (the id and
creation-timestamp metadata of the value library are diagnostic-only and
never observed by the claims). -/
inductive CellValue
  | IntV (n : Int)
  | StrV (s : String)
deriving DecidableEq

/-- `value.__class__`. -/
def valueType : CellValue → VType
  | .IntV _ => .IntT
  | .StrV _ => .StrT

/-- A `Cell`: address, declared type tag and value (`classes.py`). -/
structure Cell where
  address : Address
  type : VType
  value : CellValue
deriving DecidableEq

/-- `Cell.__new__(address, cell_type, value)`: raises `ValueError` when the
value is not an instance of the declared type. -/
def Cell.new (address : Address) (cell_type : VType) (value : CellValue) :
    Except String Cell :=
  if valueType value = cell_type then
    .ok ⟨address, cell_type, value⟩
  else
    .error "The value provided is not of type"

/-- `cells.Executable`: an instruction tag (only `Fill` is ever produced)
plus its `content` payload mapping address strings to values. -/
inductive Executable
  | Fill (content : List (String × CellValue))
deriving DecidableEq

/-- The `for index, address_str in enumerate(self.addresses_str)` loop of
`CellManager.descending_int`: compute `value = start - step*index`, break
as soon as `stop < value` (when a stop is given), else store
`Integer(value)`. -/
def descending_fill_loop :
    List String → Int → Int → Option Int → Nat → List (String × CellValue) →
      List (String × CellValue)
  | [], _, _, _, _, dct => dct
  | address_str :: rest, start, step, stop, index, dct =>
    let value : Int := start - step * (index : Int)
    match stop with
    | some s =>
      if s < value then dct
      else
        descending_fill_loop rest start step (some s) (index + 1)
          (dictInsert dct address_str (.IntV value))
    | none =>
        descending_fill_loop rest start step none (index + 1)
          (dictInsert dct address_str (.IntV value))

/-- `CellManager.descending_int(start=..., step=..., stop=...)` on a manager
whose selection is `addresses_str` (the `command_from` guard is satisfied
because the selection was produced by `select`): raise when
`start < stop`, else build the Fill executable from the loop above. -/
def descending_int (addresses_str : List String) (start step : Int)
    (stop : Option Int) : Except String Executable :=
  match stop with
  | some s =>
    if start < s then .error "stop point cannot be higher than start"
    else .ok (.Fill (descending_fill_loop addresses_str start step (some s) 0 []))
  | none => .ok (.Fill (descending_fill_loop addresses_str start step none 0 []))

/-! ## Grid store (src/spreadsheets/base/main.py, class Spreadsheets) -/

/-- The `Spreadsheets` state observed by the claims: the configured limits,
the sparse `__content` map and the cached `__max_address` corner. -/
structure Grid where
  limits : Limits
  content : List (Address × Cell)
  max_address : Option Address
deriving DecidableEq

namespace Spreadsheets

/-- A fresh `Spreadsheets(col_max, row_max)`: empty content, no corner. -/
def empty (limits : Limits) : Grid := ⟨limits, [], none⟩

/-- `Spreadsheets.__try_settings_new_max_cell`: the three-way corner update.
The source re-constructs the synthetic corner through `Address(...)`; both
components come from already-validated addresses, so that construction
always passes validation and is embedded as a direct record build. -/
def try_settings_new_max_cell (current : Option Address) (address : Address) :
    Option Address :=
  match current with
  | none => some address
  | some mx =>
    if Address.get_col_num address.col ≥ Address.get_col_num mx.col
        ∧ address.row ≥ mx.row then
      some address
    else if Address.get_col_num address.col ≥ Address.get_col_num mx.col
        ∧ address.row ≤ mx.row then
      some ⟨Address.get_col_by_num (Address.get_col_num address.col), mx.row⟩
    else if Address.get_col_num address.col ≤ Address.get_col_num mx.col
        ∧ address.row ≥ mx.row then
      some ⟨mx.col, address.row⟩
    else
      some mx

/-- `Spreadsheets.add(cell)`: duplicate addresses are rejected with
`ValueError`, otherwise the cell is stored and the corner updated. -/
def add (g : Grid) (cell : Cell) : Except String Grid :=
  if (dictLookup g.content cell.address).isSome then
    .error "There is already an object at the address"
  else
    .ok { g with
            content := dictInsert g.content cell.address cell,
            max_address := try_settings_new_max_cell g.max_address cell.address }

/-- `Spreadsheets.__fadd(cell)`: the forceful insertion path — no duplicate
check, silent overwrite. -/
def fadd (g : Grid) (cell : Cell) : Grid :=
  { g with
      content := dictInsert g.content cell.address cell,
      max_address := try_settings_new_max_cell g.max_address cell.address }

/-- `Spreadsheets.get(address)`: raises `ValueError` when nothing is stored
at the address. -/
def get (g : Grid) (address : Address) : Except String Cell :=
  match dictLookup g.content address with
  | some cell => .ok cell
  | none => .error ("There is no object at this address: " ++ address.value)

/-- `Spreadsheets.__execute_filling(dct)`: for each payload entry, split the
address string and construct a bound `Address` against the grid's limits —
this construction sits OUTSIDE the `try`, so its `NameError` propagates and
aborts the rest of the batch (earlier insertions persist).  The
`try/except KeyError` around the forced add guards an expression that can
only raise `ValueError` (from `Cell`), never `KeyError`, so it is embedded
as the straight-line propagation it actually is. -/
def execute_filling : Grid → List (String × CellValue) → Grid × Option String
  | g, [] => (g, none)
  | g, (address_str, value) :: rest =>
    match Address.new (Address.split_address_str address_str).1
        (Address.split_address_str address_str).2 g.limits with
    | .error e => (g, some e)
    | .ok address =>
      match Cell.new address (valueType value) value with
      | .error e => (g, some e)
      | .ok cell => execute_filling (fadd g cell) rest

/-- `Spreadsheets.execute(executable)`: dispatch on the instruction tag. -/
def execute (g : Grid) (e : Executable) : Grid × Option String :=
  match e with
  | .Fill content => execute_filling g content

end Spreadsheets

/-! ## Claim C1: descending_int -/

/-- C1: on the 10-address selection `select("A1", Down, 9)`,
`descending_int(start=20, step=1, stop=16)` — contrary to the claim, which
expects the first five addresses filled with 20,19,18,17,16 — produces a
Fill payload with NO entries at all: the loop's break condition is
`stop < value`, which already holds at index 0 (16 < 20), so the loop
stops before storing anything. -/
theorem descending_int_early_stop_is_empty :
    select_line "A1" SelectDirection.Down 9
      = .ok ["A1", "A2", "A3", "A4", "A5", "A6", "A7", "A8", "A9", "A10"]
    ∧ descending_int ["A1", "A2", "A3", "A4", "A5", "A6", "A7", "A8", "A9", "A10"]
        20 1 (some 16)
      = .ok (.Fill []) := by decide

/-! ## Claim C2: execute's bulk Fill is not best-effort -/

/-- The bulk-fill scenario deciding C2: a Fill payload whose middle entry
"ZZZZ1" exceeds the default column limit (col number 475254 > 1000),
applied to an empty default grid. -/
def fill_batch_with_bad_entry : Grid × Option String :=
  Spreadsheets.execute (Spreadsheets.empty defaultLimits)
    (.Fill [("A1", .IntV 1), ("ZZZZ1", .IntV 2), ("B1", .IntV 3)])

/-- C2: contrary to the claim, a per-entry naming error is NOT caught:
the bound-Address construction sits outside the `try` (whose handler also
only catches `KeyError`), so the error propagates out of `execute` — the
entry before the bad one is applied, the entry after it never is. -/
theorem execute_filling_aborts_on_bad_entry :
    fill_batch_with_bad_entry.2
      = some "Can't name address ZZZZ1, as it is out of column limit"
    ∧ dictLookup fill_batch_with_bad_entry.1.content ⟨"A", 1⟩
      = some ⟨⟨"A", 1⟩, .IntT, .IntV 1⟩
    ∧ dictLookup fill_batch_with_bad_entry.1.content ⟨"B", 1⟩ = none := by decide

/-! ## Claim C4: grid duplicate/missing/overwrite semantics -/

lemma Cell_new_own_type (a : Address) (v : CellValue) :
    Cell.new a (valueType v) v = .ok ⟨a, valueType v, v⟩ := by
  simp [Cell.new]

/-- C4: `add` at an occupied address raises the duplicate-cell error (the
grid is returned unchanged, since an erroring `add` returns no new state);
`get` at a never-added address raises the missing-cell error; executing a
Fill whose (well-formed, in-limits) address is already occupied succeeds
with no error and silently overwrites the stored cell. -/
theorem grid_duplicate_missing_overwrite (g : Grid) (c : Cell) (a : Address)
    (astr : String) (v : CellValue) (b : Address)
    (h1 : (dictLookup g.content c.address).isSome = true)
    (h2 : dictLookup g.content a = none)
    (h3 : Address.new (Address.split_address_str astr).1
        (Address.split_address_str astr).2 g.limits = .ok b)
    (h4 : (dictLookup g.content b).isSome = true) :
    Spreadsheets.add g c = .error "There is already an object at the address"
    ∧ Spreadsheets.get g a
      = .error ("There is no object at this address: " ++ a.value)
    ∧ (Spreadsheets.execute g (.Fill [(astr, v)])).2 = none
    ∧ dictLookup (Spreadsheets.execute g (.Fill [(astr, v)])).1.content b
      = some ⟨b, valueType v, v⟩ := by
  refine ⟨?_, ?_, ?_, ?_⟩
  · rw [Spreadsheets.add, if_pos h1]
  · rw [Spreadsheets.get, h2]
  · simp only [Spreadsheets.execute, Spreadsheets.execute_filling, h3, Cell_new_own_type]
  · simp only [Spreadsheets.execute, Spreadsheets.execute_filling, h3, Cell_new_own_type,
      Spreadsheets.fadd]
    exact dictLookup_dictInsert_self g.content b ⟨b, valueType v, v⟩

/-- A concrete grid holding one Integer cell at A1 (used to witness C4). -/
def witness_grid : Grid :=
  ⟨defaultLimits, [(⟨"A", 1⟩, ⟨⟨"A", 1⟩, .IntT, .IntV 7⟩)], some ⟨"A", 1⟩⟩

/-- Witness for C4 at a concrete state: duplicate add at A1, missing get at
B2, and an overwriting Fill at "A1". -/
theorem grid_duplicate_missing_overwrite_witness :
    Spreadsheets.add witness_grid ⟨⟨"A", 1⟩, .IntT, .IntV 9⟩
      = .error "There is already an object at the address"
    ∧ Spreadsheets.get witness_grid ⟨"B", 2⟩
      = .error ("There is no object at this address: " ++ (Address.mk "B" 2).value)
    ∧ (Spreadsheets.execute witness_grid (.Fill [("A1", .IntV 5)])).2 = none
    ∧ dictLookup
        (Spreadsheets.execute witness_grid (.Fill [("A1", .IntV 5)])).1.content
        ⟨"A", 1⟩
      = some ⟨⟨"A", 1⟩, .IntT, .IntV 5⟩ :=
  grid_duplicate_missing_overwrite witness_grid ⟨⟨"A", 1⟩, .IntT, .IntV 9⟩
    ⟨"B", 2⟩ "A1" (.IntV 5) ⟨"A", 1⟩ (by decide) (by decide) (by decide) (by decide)

/-! ## Claim C6: bound Address validation -/

/-- C6 (amended): bound-Address construction raises the naming error
whenever the column's number exceeds the column maximum, the row exceeds
the row maximum, or the column has invalid characters — in particular for
column "AAAA" against the default limit of 1000 — but performs NO
positivity check on the row (row 0 is accepted; see the counterexample). -/
theorem address_new_limit_errors :
    (∀ (col : String) (row : Int) (limits : Limits),
        (Address.get_col_num col > limits.col ∨ row > limits.row
          ∨ Address.is_valid_col col = false) →
        ∃ e, Address.new col row limits = .error e)
    ∧ (∃ e, Address.new "AAAA" 1 defaultLimits = .error e) := by
  constructor
  · intro col row limits h
    rw [Address.new]
    split_ifs with h1 h2 h3
    · exact ⟨_, rfl⟩
    · exact ⟨_, rfl⟩
    · exact ⟨_, rfl⟩
    · rcases h with h | h | h
      · exact absurd h h2
      · exact absurd h h3
      · exact absurd h h1
  · exact ⟨"Can't name address AAAA1, as it is out of column limit", by decide⟩

/-- C6 (counterexample to the claim as stated): the bound constructor does
not reject row 0 — `Address("A", 0)` against the default limits constructs
successfully instead of raising. -/
theorem address_new_row_zero_accepted :
    Address.new "A" 0 defaultLimits = .ok ⟨"A", 0⟩ := by decide

/-! ## Temporal types (src/spreadsheets/libs/time.py) -/

/-- `DfTime`: the four Time display formats. -/
inductive DfTime
  | H24
  | H12
  | FSTR
  | STR
deriving DecidableEq

/-- Python `str(n) if n > 9 else '0' + str(n)`, the padding used when the
`__strdata` fragments are initialised. -/
def pad2py (n : Int) : String :=
  if n > 9 then toString n else "0" ++ toString n

/-- Python `int(s)` on the all-digit fragment strings this code feeds it. -/
def intOfStr (s : String) : Int := (Address.digitsToNat s.data : Int)

/-- Python `s[-1]` (as a one-character string) on the non-empty fragment
strings this code feeds it. -/
def lastCharStr (s : String) : String :=
  match s.data.getLast? with
  | some c => String.mk [c]
  | none => ""

/-- The observable state of a `Time` instance: the fields `h`, `m`, the
display format and the two cached `__strdata` fragments (the diagnostic-only
`__id` is omitted). -/
structure Time where
  h : Int
  m : Int
  display_format : DfTime
  strdata0 : String
  strdata1 : String
deriving DecidableEq

/-- `Time.__new__`/`__init__`: range-validate hour and minute, then cache
the zero-padded fragments. -/
def Time.new (h m : Int) (display_format : DfTime) : Except String Time :=
  if ¬ (0 ≤ h ∧ h ≤ 23) then
    .error "Hour must equal any number between 0 and 23"
  else if ¬ (0 ≤ m ∧ m ≤ 59) then
    .error "Minute must equal any number between 0 and 59"
  else
    .ok ⟨h, m, display_format, pad2py h, pad2py m⟩

/-- `Time.__str__`: note that in `H12` mode the method MUTATES the cached
`__strdata` fragments in place (hour-0 remap to "12", the `13 < h < 24`
remap to `str(h-12)`, and the two `0 < int(frag) < 9` re-padding steps), so
it returns the rendered string together with the updated state.  The `FSTR`
branch's f-string contains a backslash line continuation, which leaves the
next source line's 25 spaces of indentation inside the literal. -/
def Time.str_render (t : Time) : String × Time :=
  match t.display_format with
  | DfTime.H24 => (t.strdata0 ++ ":" ++ t.strdata1, t)
  | DfTime.H12 =>
    let suffix : String := if 0 ≤ t.h ∧ t.h ≤ 11 then " am" else " pm"
    let s0 := if t.h = 0 then toString (12 : Int) else t.strdata0
    let s0 := if 13 < t.h ∧ t.h < 24 then toString (t.h - 12) else s0
    let s0 := if 0 < intOfStr s0 ∧ intOfStr s0 < 9 then "0" ++ lastCharStr s0 else s0
    let s1 :=
      if 0 < intOfStr t.strdata1 ∧ intOfStr t.strdata1 < 9 then
        "0" ++ lastCharStr t.strdata1
      else t.strdata1
    (s0 ++ ":" ++ s1 ++ suffix, { t with strdata0 := s0, strdata1 := s1 })
  | DfTime.FSTR =>
    (toString t.h ++ " hour" ++ (if t.h ≠ 1 then "s" else "") ++ " "
        ++ String.mk (List.replicate 25 ' ') ++ "and " ++ toString t.m
        ++ " minute" ++ (if t.m ≠ 1 then "s" else ""), t)
  | DfTime.STR => (toString t.h ++ " h " ++ toString t.m ++ " m", t)

/-- `Time.change_display_format(to)`: a no-op when the target equals the
current format, otherwise just swaps the format flag — the cached
`__strdata` fragments are NOT recomputed. -/
def Time.change_display_format (t : Time) (fmt : DfTime) : Time :=
  if t.display_format = fmt then t else { t with display_format := fmt }

/-- `Date.is_leap_year`. -/
def is_leap_year (year : Int) : Bool :=
  (year % 4 == 0 && year % 100 != 0) || (year % 400 == 0)

/-- The twelve month names (`Date.__months`). -/
def date_months : List String :=
  ["January", "February", "March", "April", "May", "June", "July", "August",
   "September", "October", "November", "December"]

/-- `DfDate`: day-first vs month-first display. -/
inductive DfDate
  | DEFAULT
  | EN_US
deriving DecidableEq

/-- The observable state of a `Date` instance (diagnostic `__id` omitted;
month/year display sub-formats are fixed at their `__init__` values INT and
CHAR4 and are not needed by the claims, so only the main format is kept). -/
structure Date where
  d : Int
  m : Int
  y : Int
  strdata : List String
  display_format : DfDate
deriving DecidableEq

/-- `Date.__new__`/`__init__`: validates day 1–31 and month 1–12, then the
February checks — note the `d > 28` check is NOT guarded by "non-leap", so
it fires in leap years too — then the 30-day months. -/
def Date.new (d m y : Int) (display_format : DfDate) : Except String Date :=
  if ¬ (1 ≤ d ∧ d ≤ 31) then
    .error "The day must be between 1 and 31"
  else if ¬ (1 ≤ m ∧ m ≤ 12) then
    .error "The month must be between 1 and 12"
  else if m = 2 ∧ is_leap_year y = true ∧ d > 29 then
    .error "The day cannot be more than 29 in leap-year February"
  else if m = 2 ∧ d > 28 then
    .error "The day cannot be more than 28 in February"
  else if (m = 4 ∨ m = 6 ∨ m = 9 ∨ m = 11) ∧ d > 30 then
    .error ("The day cannot be more than 30 in "
        ++ date_months.getD (m - 1).toNat "")
  else
    .ok ⟨d, m, y, [pad2py d, pad2py m, toString y], display_format⟩

/-! ## Claim C7: Date calendar validation -/

/-- C7: contrary to the claim that `Date(29,2,2024)` constructs
successfully, it raises — the unguarded `d > 28` February check fires even
in a leap year.  The two rejection cases of the claim do hold:
`Date(29,2,2023)` and `Date(31,4,2023)` both raise. -/
theorem date_feb29_leap_year_rejected :
    Date.new 29 2 2024 DfDate.DEFAULT
      = .error "The day cannot be more than 28 in February"
    ∧ Date.new 29 2 2023 DfDate.DEFAULT
      = .error "The day cannot be more than 28 in February"
    ∧ Date.new 31 4 2023 DfDate.DEFAULT
      = .error "The day cannot be more than 30 in April" := by decide

/-! ## Claim C8: Time 12-hour rendering -/

/-- Constructing a `Time` in 12-hour mode and rendering it once (the
scenario of C8). -/
def render_h12 (h m : Int) : Option String :=
  match Time.new h m DfTime.H12 with
  | .error _ => none
  | .ok t => some (Time.str_render t).1

/-- C8: `Time(0,5,H12)` renders as "12:05 am" as claimed, but
`Time(13,30,H12)` renders as "13:30 pm", not the claimed "01:30 pm" — the
remap condition is the strict `13 < h < 24`, so hour 13 is never remapped
(hours 14–23 are, e.g. 14 renders "02:30 pm"). -/
theorem time_h12_rendering :
    render_h12 0 5 = some "12:05 am"
    ∧ render_h12 13 30 = some "13:30 pm"
    ∧ render_h12 14 30 = some "02:30 pm" := by decide

/-! ## Claim C9: the Null singleton guard -/

/-- `_NullType.__new__` (src/spreadsheets/libs/__init__.py), as a function
of the class-level `__instanced` flag: raise `PermissionError` when the
flag is set — but the flag is NEVER set by any code path, so the returned
state is the unchanged input flag. -/
def NullType_new (instanced : Bool) : Except String (Unit × Bool) :=
  if instanced then
    .error "Cannot create another instance of _NullType"
  else
    .ok ((), instanced)

/-- C9: contrary to the claim, the singleton guard never engages: the
module-level `Null = _NullType()` construction leaves `__instanced` still
False (nothing ever sets it), so a second construction attempt succeeds as
well instead of raising. -/
theorem null_second_construction_succeeds :
    NullType_new false = .ok ((), false)
    ∧ (match NullType_new false with
       | .ok (_, s) => NullType_new s
       | .error e => .error e) = .ok ((), false) := by decide

/-! ## Claim C10: H12 render mutates the cached fragments -/

/-- The C10 scenario: construct `Time(h, m)` in 12-hour mode, render once,
switch the display format back to 24-hour, render again. -/
def h12_then_h24_render (h m : Int) : Option String :=
  match Time.new h m DfTime.H12 with
  | .error _ => none
  | .ok t =>
    let r := Time.str_render t
    let t2 := Time.change_display_format r.2 DfTime.H24
    some (Time.str_render t2).1

/-- C10 (amended): for 14 ≤ h ≤ 23, rendering once in 12-hour mode
permanently rewrites the cached hour fragment to the decimal string of
h−12 — re-padded to two digits only when `0 < h−12 < 9` — so a subsequent
switch back to 24-hour mode renders the 12-hour digits, never the original
24-hour hour (the round trip is not the identity on the rendered string). -/
theorem h12_h24_roundtrip_not_identity (h m : Int)
    (h1 : 14 ≤ h) (h2 : h ≤ 23) (h3 : 0 ≤ m) (h4 : m ≤ 59) :
    h12_then_h24_render h m
      = some ((if h - 12 < 9 then "0" ++ toString (h - 12) else toString (h - 12))
          ++ ":" ++ pad2py m)
    ∧ h12_then_h24_render h m ≠ some (pad2py h ++ ":" ++ pad2py m) := by
  interval_cases h <;> interval_cases m <;> exact ⟨by decide, by decide⟩

/-- Witness for C10 at the claim's own example `Time(14,30)`: the second
render is "02:30", not "14:30". -/
theorem h12_h24_roundtrip_witness :
    h12_then_h24_render 14 30
      = some ((if (14 : Int) - 12 < 9 then "0" ++ toString ((14 : Int) - 12)
            else toString ((14 : Int) - 12))
          ++ ":" ++ pad2py 30)
    ∧ h12_then_h24_render 14 30 ≠ some (pad2py 14 ++ ":" ++ pad2py 30) :=
  h12_h24_roundtrip_not_identity 14 30 (by decide) (by decide) (by decide) (by decide)

/-- C10 (counterexample to the claim as stated): at `Time(21,30)` the hour
fragment is rewritten to "9" — `str(21-12)` — and NOT zero-padded (the
re-padding condition `0 < int(frag) < 9` excludes the value 9), so the
second render is "9:30", not the "09:30" the claim's "zero-padded value
h−12" wording predicts. -/
theorem h12_h24_fragment_not_padded_at_21 :
    h12_then_h24_render 21 30 = some "9:30"
    ∧ ("9:30" : String) ≠ "09:30" := by decide

end Sheetty
